import Mathlib

/-!
# runtimeconfig-spike: a shallow embedding of `main.go`

`main.go` is a linear script against the Runtime Configuration API.  Everything
it does is an interaction with something outside the program: the credential
discovery of `golang.org/x/oauth2/google`, the process environment, the UUID
generator, the generated API client, standard output and the logger.

The embedding makes those collaborators explicit:

* `Env` holds the answers of the process environment and of the libraries;
* `Service` holds the answers of the remote API (the value `runtimeconfig.New`
  returns), one field per method the script calls;
* a program of type `Prog α` is the ordered list of effects it performs
  together with how it ends: it returns a value, or the process exits.

`log.Fatalf` is `Printf` to the logger followed by `os.Exit(1)` (package `log`
of the Go standard library), so a statement that follows a `log.Fatalf` in the
source is never executed; such statements are marked in the embedding by a
comment and have no counterpart in the Lean term.
-/

namespace RuntimeConfigSpike

/-! ## Payload types of the libraries (the fields the script touches) -/

/-- Go `error` values are represented by their message. -/
abbrev GoError := String

/-- Model of `oauth2.TokenSource`: a handle. -/
structure TokenSource where
  handle : String
  deriving DecidableEq

/-- Model of `google.Credentials`. -/
structure Credentials where
  ProjectID : String
  TokenSource : TokenSource
  deriving DecidableEq

/-- Model of the `*http.Client` built by `oauth2.NewClient`. -/
structure HTTPClient where
  Source : TokenSource
  deriving DecidableEq

/-- Model of `uuid.UUID`, an array of 16 octets. -/
structure UUID where
  bytes : List Nat
  deriving DecidableEq

/-- Model of `runtimeconfig.RuntimeConfig`. -/
structure RuntimeConfig where
  Name : String
  Description : String
  deriving DecidableEq

/-- Model of `runtimeconfig.ListConfigsResponse`. -/
structure ListConfigsResponse where
  Configs : List RuntimeConfig
  deriving DecidableEq

/-- Model of `runtimeconfig.Binding`. -/
structure Binding where
  Role : String
  Members : List String
  deriving DecidableEq

/-- Model of `runtimeconfig.Policy`. -/
structure Policy where
  Bindings : List Binding
  deriving DecidableEq

/-- Model of `runtimeconfig.SetIamPolicyRequest`. -/
structure SetIamPolicyRequest where
  Policy : Policy
  deriving DecidableEq

/-- Model of `runtimeconfig.Variable`. -/
structure Variable where
  Name : String
  Text : String
  deriving DecidableEq

/-! ## The remote API and the environment -/

/-- A request of the script to the config service: the method and its arguments. -/
inductive Call where
  | ConfigsCreate (parent : String) (runtimeconfig : RuntimeConfig)
  | ConfigsList (parent : String)
  | ConfigsSetIamPolicy (resource : String) (request : SetIamPolicyRequest)
  | VariablesCreate (parent : String) (var : Variable)
  | VariablesGet (name : String)
  | VariablesDelete (name : String)
  | ConfigsDelete (name : String)
  deriving DecidableEq

/-- Model of `*runtimeconfig.Service`: what `....Do()` returns for each request. -/
structure Service where
  ConfigsCreate : String → RuntimeConfig → Except GoError RuntimeConfig
  ConfigsList : String → Except GoError ListConfigsResponse
  ConfigsSetIamPolicy : String → SetIamPolicyRequest → Except GoError Policy
  VariablesCreate : String → Variable → Except GoError Variable
  VariablesGet : String → Except GoError Variable
  VariablesDelete : String → Except GoError Unit
  ConfigsDelete : String → Except GoError Unit

/-- The collaborators of the process other than the remote service. -/
structure Env where
  /-- Result of `google.FindDefaultCredentials(ctx, scopes...)`. -/
  FindDefaultCredentials : List String → Except GoError Credentials
  /-- Result of `os.Getenv(key)`; an unset variable reads as the empty string. -/
  Getenv : String → String
  /-- Result of `runtimeconfig.New(client)`. -/
  New : HTTPClient → Except GoError Service
  /-- Result of `uuid.NewRandom()`. -/
  NewRandom : Except GoError UUID
  /-- Text returned by `policy.MarshalJSON()`. For `runtimeconfig.Policy` this is
  `json.Marshal` of a struct of strings, an integer and slices of such structs, which
  returns a nil error on every value. -/
  MarshalJSON : Policy → String

/-! ## Effects and programs -/

/-- One observable action of the process. -/
inductive Effect where
  /-- A write to standard output (`fmt.Println`, `fmt.Printf`). -/
  | stdout (text : String)
  /-- A message handed to the standard logger (`log.Printf`, `log.Fatalf`). -/
  | log (text : String)
  | findDefaultCredentials (scopes : List String)
  | getenv (key : String)
  | newClient (source : TokenSource)
  | new (client : HTTPClient)
  | newRandom
  | marshalJSON (policy : Policy)
  /-- A request sent to the config service, and whether it succeeded. -/
  | remote (call : Call) (succeeded : Bool)
  deriving DecidableEq

/-- How a computation ends: with a value, or with the process exiting. -/
inductive Result (α : Type) where
  | ok (value : α)
  | exit (code : Nat)
  deriving DecidableEq

/-- A computation: the effects performed, in order, and the way it ends. -/
structure Prog (α : Type) where
  out : List Effect
  res : Result α

/-- Sequencing: the continuation runs only when the first part returns. -/
def Prog.bind {α β : Type} (m : Prog α) (f : α → Prog β) : Prog β :=
  match m.res with
  | .ok a => { out := m.out ++ (f a).out, res := (f a).res }
  | .exit code => { out := m.out, res := .exit code }

instance : Monad Prog where
  pure a := { out := [], res := .ok a }
  bind := Prog.bind

/-- Perform one effect and return `a`. -/
def emit {α : Type} (e : Effect) (a : α) : Prog α := { out := [e], res := .ok a }

/-- Model of `fmt.Println(s)`. -/
def fmt.Println (s : String) : Prog Unit := emit (.stdout (s ++ "\n")) ()

/-- Model of `fmt.Printf`, applied to the already formatted text. -/
def fmt.Printf (s : String) : Prog Unit := emit (.stdout s) ()

/-- Model of `log.Printf`, applied to the already formatted text. -/
def log.Printf (s : String) : Prog Unit := emit (.log s) ()

/-- Model of `log.Fatalf`: log the message, then `os.Exit(1)`. It never returns. -/
def log.Fatalf {α : Type} (s : String) : Prog α := { out := [.log s], res := .exit 1 }

/-- Model of `os.Getenv(key)`. -/
def os.Getenv (env : Env) (key : String) : Prog String := emit (.getenv key) (env.Getenv key)

/-- Model of `google.FindDefaultCredentials(ctx, scopes...)`. -/
def google.FindDefaultCredentials (env : Env) (scopes : List String) :
    Prog (Except GoError Credentials) :=
  emit (.findDefaultCredentials scopes) (env.FindDefaultCredentials scopes)

/-- Model of `oauth2.NewClient(ctx, src)`. -/
def oauth2.NewClient (src : TokenSource) : Prog HTTPClient :=
  emit (.newClient src) { Source := src }

/-- Model of `runtimeconfig.New(client)`. -/
def runtimeconfig.New (env : Env) (client : HTTPClient) : Prog (Except GoError Service) :=
  emit (.new client) (env.New client)

/-- Model of `uuid.NewRandom()`. -/
def uuid.NewRandom (env : Env) : Prog (Except GoError UUID) := emit .newRandom env.NewRandom

/-- Model of `policy.MarshalJSON()`: the serialised text, with a nil error. -/
def Policy.MarshalJSON (env : Env) (policy : Policy) : Prog (Except GoError String) :=
  emit (.marshalJSON policy) (.ok (env.MarshalJSON policy))

/-- Whether a Go call returned a nil error. -/
def succeeded {α : Type} : Except GoError α → Bool
  | .ok _ => true
  | .error _ => false

/-- Send a request to the service: the call is recorded, the answer returned. -/
def doCall {α : Type} (c : Call) (r : Except GoError α) : Prog (Except GoError α) :=
  emit (.remote c (succeeded r)) r

/-- Model of a `for _, x := range xs` loop. -/
def forRange {α : Type} : List α → (α → Prog Unit) → Prog Unit
  | [], _ => pure ()
  | x :: xs, body => do body x; forRange xs body

/-! ## Strings built by the libraries -/

/-- Lower-case hexadecimal digit of `n % 16` (table of `encoding/hex`). -/
def hexDigit (n : Nat) : Char :=
  "0123456789abcdef".toList.getD (n % 16) '0'

/-- Model of `hex.Encode`: two digits per octet, high nibble first. -/
def hexEncode (src : List Nat) : String :=
  String.mk (src.flatMap fun b => [hexDigit (b % 256 / 16), hexDigit (b % 256)])

/-- Model of `uuid.UUID.String`: the form `xxxxxxxx-xxxx-xxxx-xxxx-xxxxxxxxxxxx`. -/
def UUID.String (u : UUID) : String :=
  hexEncode (u.bytes.take 4) ++ "-" ++ hexEncode ((u.bytes.drop 4).take 2) ++ "-"
    ++ hexEncode ((u.bytes.drop 6).take 2) ++ "-" ++ hexEncode ((u.bytes.drop 8).take 2) ++ "-"
    ++ hexEncode ((u.bytes.drop 10).take 6)

/-! ## Requests to the service -/

/-- Model of `Projects.Configs.Create(parent, runtimeconfig).Do()`. -/
def Projects.Configs.Create (s : Service) (parent : String) (rc : RuntimeConfig) :
    Prog (Except GoError RuntimeConfig) :=
  doCall (.ConfigsCreate parent rc) (s.ConfigsCreate parent rc)

/-- Model of `Projects.Configs.List(parent).Do()`. -/
def Projects.Configs.List (s : Service) (parent : String) :
    Prog (Except GoError ListConfigsResponse) :=
  doCall (.ConfigsList parent) (s.ConfigsList parent)

/-- Model of `Projects.Configs.SetIamPolicy(resource, request).Do()`. -/
def Projects.Configs.SetIamPolicy (s : Service) (resource : String)
    (request : SetIamPolicyRequest) : Prog (Except GoError Policy) :=
  doCall (.ConfigsSetIamPolicy resource request) (s.ConfigsSetIamPolicy resource request)

/-- Model of `Projects.Configs.Variables.Create(parent, variable).Do()`. -/
def Projects.Configs.Variables.Create (s : Service) (parent : String) (v : Variable) :
    Prog (Except GoError Variable) :=
  doCall (.VariablesCreate parent v) (s.VariablesCreate parent v)

/-- Model of `Projects.Configs.Variables.Get(name).Do()`. -/
def Projects.Configs.Variables.Get (s : Service) (name : String) :
    Prog (Except GoError Variable) :=
  doCall (.VariablesGet name) (s.VariablesGet name)

/-- Model of `Projects.Configs.Variables.Delete(name).Do()`. -/
def Projects.Configs.Variables.Delete (s : Service) (name : String) :
    Prog (Except GoError Unit) :=
  doCall (.VariablesDelete name) (s.VariablesDelete name)

/-- Model of `Projects.Configs.Delete(name).Do()`. -/
def Projects.Configs.Delete (s : Service) (name : String) : Prog (Except GoError Unit) :=
  doCall (.ConfigsDelete name) (s.ConfigsDelete name)

/-! ## The program -/

/-- Go `len(s)` of a string: its length in bytes. -/
def len (s : String) : Nat := s.utf8ByteSize

/-- Embedding of the type `ApplicationDefaultCredentials` (main.go:126-129). -/
structure ApplicationDefaultCredentials where
  Client : Service
  ProjectID : String

/-- Embedding of `authenticate` (main.go:153-168). -/
def authenticate (env : Env) (scopes : List String) : Prog (Except GoError Credentials) := do
  let found ← google.FindDefaultCredentials env scopes
  match found with
  | .error err =>
    log.Fatalf ("Failed to find default credentials: " ++ err)
    -- `return nil, err` is not reached
  | .ok credentials =>
    let credentials ←
      if len credentials.ProjectID = 0 then do
        log.Printf ("Could not find project ID from runtime environment, trying the "
          ++ "GOOGLE_CLOUD_PROJECT environment variable instead.\n")
        let value ← os.Getenv env "GOOGLE_CLOUD_PROJECT"
        pure { credentials with ProjectID := value }
      else
        pure credentials
    if len credentials.ProjectID = 0 then
      log.Fatalf "Environment variable GOOGLE_CLOUD_PROJECT must contain your project ID.\n"
      -- `return nil, err` is not reached
    else
      return .ok credentials

/-- Embedding of `createRuntimeConfigClient` (main.go:131-151). -/
def createRuntimeConfigClient (env : Env) :
    Prog (Except GoError ApplicationDefaultCredentials) := do
  let authenticated ← authenticate env
    ["https://www.googleapis.com/auth/cloud-platform",
     "https://www.googleapis.com/auth/cloudruntimeconfig"]
  match authenticated with
  | .error err =>
    log.Fatalf ("Failed to authenticate: " ++ err)
    -- `return nil, err` is not reached
  | .ok credentials =>
    let client ← oauth2.NewClient credentials.TokenSource
    let created ← runtimeconfig.New env client
    match created with
    | .error err =>
      log.Fatalf ("Failed to create Runtime Configuration API client: " ++ err)
      -- `return nil, err` is not reached
    | .ok runtimeconfigClient =>
      let adc : ApplicationDefaultCredentials :=
        { Client := runtimeconfigClient, ProjectID := credentials.ProjectID }
      return .ok adc

/-- Embedding of `main` (main.go:30-122). -/
def main (env : Env) : Prog Unit := do
  fmt.Println "Creating Runtime Configuration API client"
  let created ← createRuntimeConfigClient env
  match created with
  | .error _ =>
    log.Fatalf "Failed to create Runtime Configuration API client.\n"
    -- `os.Exit(1)` is not reached
  | .ok applicationDefaultCredentials =>
  let runtimeconfigClient := applicationDefaultCredentials.Client
  let projectID := applicationDefaultCredentials.ProjectID
  fmt.Printf ("Project ID: " ++ projectID ++ "\n")
  let projectPath := "projects/" ++ projectID
  let generated ← uuid.NewRandom env
  match generated with
  | .error err =>
    log.Fatalf ("Failed to create UUID for config name: " ++ err)
    -- `os.Exit(1)` is not reached
  | .ok uuidVal =>
  let configPath := projectPath ++ "/configs/config-" ++ uuidVal.String
  fmt.Printf ("Creating config " ++ configPath ++ "\n")
  let createdConfig ← Projects.Configs.Create runtimeconfigClient projectPath
    { Name := configPath, Description := "Configuration created via API" }
  match createdConfig with
  | .error err =>
    log.Fatalf ("Failed to create config: " ++ err)
    -- `os.Exit(1)` is not reached
  | .ok config =>
  fmt.Printf ("Config: " ++ config.Name ++ "\n")
  fmt.Printf ("Listing existing configs for project ID " ++ projectID ++ ":\n")
  let listed ← Projects.Configs.List runtimeconfigClient projectPath
  match listed with
  | .error err =>
    log.Fatalf ("Failed to retrieve list of configs: " ++ err)
    -- `os.Exit(1)` is not reached
  | .ok listConfigsResponse =>
  forRange listConfigsResponse.Configs fun savedConfig =>
    fmt.Printf ("Saved config: " ++ savedConfig.Name ++ "\n")
  let role := "roles/viewer"
  let serviceAccountName := "runtimeconfig-spike@" ++ projectID ++ ".iam.gserviceaccount.com"
  fmt.Printf ("Setting IAM policy with role \"" ++ role ++ "\" for serviceAccount:"
    ++ serviceAccountName ++ "\n")
  let policySet ← Projects.Configs.SetIamPolicy runtimeconfigClient configPath
    { Policy := { Bindings :=
        [{ Role := role, Members := ["serviceAccount:" ++ serviceAccountName] }] } }
  match policySet with
  | .error err =>
    log.Fatalf ("Failed to set config IAM policy: " ++ err)
    -- `os.Exit(1)` is not reached
  | .ok policy =>
  let marshalled ← Policy.MarshalJSON env policy
  match marshalled with
  | .error err =>
    -- never taken: `Policy.MarshalJSON` returns a nil error
    log.Fatalf ("Failed to marshall policy as JSON: " ++ err)
  | .ok policyJSON =>
  fmt.Printf ("Policy:\n" ++ policyJSON ++ "\n")
  let variablePath := configPath ++ "/variables/myvar1"
  fmt.Printf ("Creating config variable " ++ variablePath ++ "\n")
  let variableCreated ← Projects.Configs.Variables.Create runtimeconfigClient configPath
    { Name := variablePath, Text := "mysecret1" }
  match variableCreated with
  | .error err =>
    log.Fatalf ("Failed to create config variable: " ++ err)
  | .ok createdVariable =>
  fmt.Printf ("Variable name: " ++ createdVariable.Name ++ "\n")
  fmt.Printf ("Getting config variable " ++ variablePath ++ "\n")
  let got ← Projects.Configs.Variables.Get runtimeconfigClient variablePath
  match got with
  | .error err =>
    log.Fatalf ("Failed to get config variable: " ++ err)
  | .ok variable_ =>
  fmt.Printf ("Variable text: " ++ variable_.Text ++ "\n")
  fmt.Printf ("Deleting config variable " ++ variablePath ++ "\n")
  let variableDeleted ← Projects.Configs.Variables.Delete runtimeconfigClient variablePath
  match variableDeleted with
  | .error err =>
    log.Fatalf ("Failed to delete config variable: " ++ err)
  | .ok _ =>
  fmt.Printf ("Deleting config " ++ configPath ++ "\n")
  let configDeleted ← Projects.Configs.Delete runtimeconfigClient configPath
  match configDeleted with
  | .error err =>
    log.Fatalf ("Failed to delete config: " ++ err)
  | .ok _ =>
  pure ()

/-! ## Observations on a run -/

/-- The requests sent to the config service, in order, each with its success flag. -/
def remoteEvents (out : List Effect) : List (Call × Bool) :=
  out.filterMap fun
    | .remote c ok => some (c, ok)
    | _ => none

/-- The requests sent to the config service, in order: the call trace. -/
def remoteCalls (out : List Effect) : List Call := (remoteEvents out).map Prod.fst

/-- The texts written to standard output, in order. -/
def stdoutWrites (out : List Effect) : List String :=
  out.filterMap fun
    | .stdout s => some s
    | _ => none

/-- The scopes `createRuntimeConfigClient` passes to `authenticate` (main.go:133-134). -/
def requestedScopes : List String :=
  ["https://www.googleapis.com/auth/cloud-platform",
   "https://www.googleapis.com/auth/cloudruntimeconfig"]

/-- The seven-call sequence of the specification's end-to-end scenario, written from its
words for project `p` and UUID text `u`, with `C = "projects/" ++ p ++ "/configs/config-" ++ u`. -/
def sevenCalls (p u : String) : List Call :=
  [ .ConfigsCreate ("projects/" ++ p)
      { Name := "projects/" ++ p ++ "/configs/config-" ++ u,
        Description := "Configuration created via API" },
    .ConfigsList ("projects/" ++ p),
    .ConfigsSetIamPolicy ("projects/" ++ p ++ "/configs/config-" ++ u)
      { Policy := { Bindings :=
        [{ Role := "roles/viewer", Members :=
            ["serviceAccount:runtimeconfig-spike@" ++ p ++ ".iam.gserviceaccount.com"] }] } },
    .VariablesCreate ("projects/" ++ p ++ "/configs/config-" ++ u)
      { Name := "projects/" ++ p ++ "/configs/config-" ++ u ++ "/variables/myvar1",
        Text := "mysecret1" },
    .VariablesGet ("projects/" ++ p ++ "/configs/config-" ++ u ++ "/variables/myvar1"),
    .VariablesDelete ("projects/" ++ p ++ "/configs/config-" ++ u ++ "/variables/myvar1"),
    .ConfigsDelete ("projects/" ++ p ++ "/configs/config-" ++ u) ]

/-- The project ID `authenticate` settles on, given the discovered credentials. -/
def resolvedProjectID (env : Env) (creds : Credentials) : String :=
  if creds.ProjectID = "" then env.Getenv "GOOGLE_CLOUD_PROJECT" else creds.ProjectID

/-! ## Test doubles -/

/-- A fixed UUID, octets `00` to `0f`. -/
def mockUUID : UUID := { bytes := [0, 1, 2, 3, 4, 5, 6, 7, 8, 9, 10, 11, 12, 13, 14, 15] }

/-- A config service that accepts every request; `Variables.Get` answers with a text that
differs from the one the script created. -/
def mockService : Service where
  ConfigsCreate := fun _ rc => .ok rc
  ConfigsList := fun _ => .ok { Configs := [{ Name := "projects/test-proj/configs/old",
                                              Description := "" }] }
  ConfigsSetIamPolicy := fun _ request => .ok request.Policy
  VariablesCreate := fun _ v => .ok v
  VariablesGet := fun name => .ok { Name := name, Text := "changed" }
  VariablesDelete := fun _ => .ok ()
  ConfigsDelete := fun _ => .ok ()

/-- An environment in which everything succeeds, for project `test-proj`. -/
def mockEnv : Env where
  FindDefaultCredentials := fun _ =>
    .ok { ProjectID := "test-proj", TokenSource := { handle := "adc" } }
  Getenv := fun _ => ""
  New := fun _ => .ok mockService
  NewRandom := .ok mockUUID
  MarshalJSON := fun _ => "\x7b\x7d"

/-- As `mockEnv`, but the service rejects `Configs.Create`. -/
def createFailEnv : Env :=
  { mockEnv with
    New := fun _ => .ok { mockService with ConfigsCreate := fun _ _ => .error "403" } }

/-- As `mockEnv`, but the service rejects `Variables.Get`. -/
def getFailEnv : Env :=
  { mockEnv with
    New := fun _ => .ok { mockService with VariablesGet := fun _ => .error "404" } }

/-- The credentials carry no project ID and `GOOGLE_CLOUD_PROJECT` is unset. -/
def noProjectEnv : Env :=
  { mockEnv with
    FindDefaultCredentials := fun _ =>
      .ok { ProjectID := "", TokenSource := { handle := "adc" } } }

/-- The credentials carry no project ID and `GOOGLE_CLOUD_PROJECT` is `env-proj`. -/
def fallbackEnv : Env :=
  { noProjectEnv with
    Getenv := fun key => if key = "GOOGLE_CLOUD_PROJECT" then "env-proj" else "" }

/-- The config path of the run of `mockEnv`. -/
def mockConfigPath : String :=
  "projects/test-proj/configs/config-00010203-0405-0607-0809-0a0b0c0d0e0f"

/-- The policy the script sends for project `test-proj`. -/
def mockPolicy : Policy :=
  { Bindings := [{ Role := "roles/viewer", Members :=
      ["serviceAccount:runtimeconfig-spike@test-proj.iam.gserviceaccount.com"] }] }

/-- What `createRuntimeConfigClient` returns in `mockEnv`. -/
def mockADC : ApplicationDefaultCredentials := { Client := mockService, ProjectID := "test-proj" }

/-! ## Basic facts about programs -/

theorem bind_eq {α β : Type} (m : Prog α) (f : α → Prog β) : m >>= f = Prog.bind m f := rfl

theorem emit_bind {α β : Type} (e : Effect) (a : α) (f : α → Prog β) :
    emit e a >>= f = { out := e :: (f a).out, res := (f a).res } := rfl

@[simp] theorem emit_bind_out {α β : Type} (e : Effect) (a : α) (f : α → Prog β) :
    (emit e a >>= f).out = e :: (f a).out := rfl

@[simp] theorem emit_bind_res {α β : Type} (e : Effect) (a : α) (f : α → Prog β) :
    (emit e a >>= f).res = (f a).res := rfl

@[simp] theorem emit_out {α : Type} (e : Effect) (a : α) : (emit e a).out = [e] := rfl

@[simp] theorem emit_res {α : Type} (e : Effect) (a : α) : (emit e a).res = .ok a := rfl

@[simp] theorem mk_ok_bind_out {α β : Type} (l : List Effect) (a : α) (f : α → Prog β) :
    (({ out := l, res := .ok a } : Prog α) >>= f).out = l ++ (f a).out := rfl

@[simp] theorem mk_ok_bind_res {α β : Type} (l : List Effect) (a : α) (f : α → Prog β) :
    (({ out := l, res := .ok a } : Prog α) >>= f).res = (f a).res := rfl

@[simp] theorem pure_bind_prog {α β : Type} (a : α) (f : α → Prog β) :
    (pure a : Prog α) >>= f = f a := rfl

@[simp] theorem fatalf_bind {α β : Type} (s : String) (f : α → Prog β) :
    (log.Fatalf s : Prog α) >>= f = log.Fatalf s := rfl

@[simp] theorem fatalf_out {α : Type} (s : String) : (log.Fatalf s : Prog α).out = [.log s] := rfl

@[simp] theorem fatalf_res {α : Type} (s : String) : (log.Fatalf s : Prog α).res = .exit 1 := rfl

@[simp] theorem pure_out {α : Type} (a : α) : (pure a : Prog α).out = [] := rfl

@[simp] theorem pure_res {α : Type} (a : α) : (pure a : Prog α).res = .ok a := rfl

theorem bind_of_ok {α β : Type} {m : Prog α} {a : α} (h : m.res = .ok a) (f : α → Prog β) :
    m >>= f = { out := m.out ++ (f a).out, res := (f a).res } := by
  simp [bind_eq, Prog.bind, h]

theorem bind_out_of_ok {α β : Type} {m : Prog α} {a : α} (h : m.res = .ok a)
    (f : α → Prog β) : (m >>= f).out = m.out ++ (f a).out := by
  rw [bind_of_ok h]

theorem bind_res_of_ok {α β : Type} {m : Prog α} {a : α} (h : m.res = .ok a)
    (f : α → Prog β) : (m >>= f).res = (f a).res := by
  rw [bind_of_ok h]

theorem bind_of_exit {α β : Type} {m : Prog α} {code : Nat} (h : m.res = .exit code)
    (f : α → Prog β) : m >>= f = { out := m.out, res := .exit code } := by
  simp [bind_eq, Prog.bind, h]

@[simp] theorem remoteEvents_nil : remoteEvents [] = [] := rfl

@[simp] theorem remoteEvents_cons_remote (c : Call) (ok : Bool) (l : List Effect) :
    remoteEvents (.remote c ok :: l) = (c, ok) :: remoteEvents l := rfl

@[simp] theorem remoteEvents_cons_stdout (s : String) (l : List Effect) :
    remoteEvents (.stdout s :: l) = remoteEvents l := rfl

@[simp] theorem remoteEvents_cons_log (s : String) (l : List Effect) :
    remoteEvents (.log s :: l) = remoteEvents l := rfl

@[simp] theorem remoteEvents_cons_find (s : List String) (l : List Effect) :
    remoteEvents (.findDefaultCredentials s :: l) = remoteEvents l := rfl

@[simp] theorem remoteEvents_cons_getenv (s : String) (l : List Effect) :
    remoteEvents (.getenv s :: l) = remoteEvents l := rfl

@[simp] theorem remoteEvents_cons_newClient (s : TokenSource) (l : List Effect) :
    remoteEvents (.newClient s :: l) = remoteEvents l := rfl

@[simp] theorem remoteEvents_cons_new (s : HTTPClient) (l : List Effect) :
    remoteEvents (.new s :: l) = remoteEvents l := rfl

@[simp] theorem remoteEvents_cons_newRandom (l : List Effect) :
    remoteEvents (.newRandom :: l) = remoteEvents l := rfl

@[simp] theorem remoteEvents_cons_marshal (p : Policy) (l : List Effect) :
    remoteEvents (.marshalJSON p :: l) = remoteEvents l := rfl

@[simp] theorem remoteEvents_append (l₁ l₂ : List Effect) :
    remoteEvents (l₁ ++ l₂) = remoteEvents l₁ ++ remoteEvents l₂ := by
  simp [remoteEvents, List.filterMap_append]

theorem mem_remoteEvents {c : Call} {ok : Bool} {out : List Effect} :
    (c, ok) ∈ remoteEvents out ↔ Effect.remote c ok ∈ out := by
  induction out with
  | nil => simp
  | cons e l ih => cases e <;> simp [ih]

/-- The loop that prints the listed configs writes one line per config and returns. -/
theorem forRange_printf (f : RuntimeConfig → String) (l : List RuntimeConfig) :
    forRange l (fun c => fmt.Printf (f c)) =
      { out := l.map fun c => .stdout (f c), res := .ok () } := by
  induction l with
  | nil => rfl
  | cons c l ih =>
    simp only [fmt.Printf] at ih
    simp [forRange, fmt.Printf, ih, emit_bind]

theorem len_eq_zero_iff (s : String) : len s = 0 ↔ s = "" := by
  rcases s with ⟨cs⟩
  cases cs with
  | nil => simp [len]; rfl
  | cons c cs =>
    have h := Char.utf8Size_pos c
    simp only [len, String.utf8ByteSize, String.utf8ByteSize.go]
    constructor
    · intro h0
      omega
    · intro h0
      have h1 := congrArg String.data h0
      simp at h1

/-! ## Credential resolution and client construction -/

theorem authenticate_find_error (env : Env) (scopes : List String) (e : GoError)
    (h : env.FindDefaultCredentials scopes = .error e) :
    authenticate env scopes =
      { out := [.findDefaultCredentials scopes,
                .log ("Failed to find default credentials: " ++ e)],
        res := .exit 1 } := by
  simp [authenticate, emit_bind, google.FindDefaultCredentials, h, log.Fatalf]

theorem authenticate_direct (env : Env) (scopes : List String) (creds : Credentials)
    (h : env.FindDefaultCredentials scopes = .ok creds) (hp : creds.ProjectID ≠ "") :
    authenticate env scopes =
      { out := [.findDefaultCredentials scopes], res := .ok (.ok creds) } := by
  have hl : len creds.ProjectID ≠ 0 := fun h0 => hp ((len_eq_zero_iff _).1 h0)
  simp [authenticate, emit_bind, google.FindDefaultCredentials, h, hl]

theorem authenticate_fallback (env : Env) (scopes : List String) (creds : Credentials)
    (h : env.FindDefaultCredentials scopes = .ok creds) (hp : creds.ProjectID = "")
    (hv : env.Getenv "GOOGLE_CLOUD_PROJECT" ≠ "") :
    authenticate env scopes =
      { out := [.findDefaultCredentials scopes,
                .log ("Could not find project ID from runtime environment, trying the "
                  ++ "GOOGLE_CLOUD_PROJECT environment variable instead.\n"),
                .getenv "GOOGLE_CLOUD_PROJECT"],
        res := .ok (.ok { creds with ProjectID := env.Getenv "GOOGLE_CLOUD_PROJECT" }) } := by
  have hl : len creds.ProjectID = 0 := (len_eq_zero_iff _).2 hp
  have hl2 : len (env.Getenv "GOOGLE_CLOUD_PROJECT") ≠ 0 :=
    fun h0 => hv ((len_eq_zero_iff _).1 h0)
  simp [authenticate, emit_bind, google.FindDefaultCredentials, h, hl, hl2, log.Printf, os.Getenv]

theorem authenticate_no_project (env : Env) (scopes : List String) (creds : Credentials)
    (h : env.FindDefaultCredentials scopes = .ok creds) (hp : creds.ProjectID = "")
    (hv : env.Getenv "GOOGLE_CLOUD_PROJECT" = "") :
    authenticate env scopes =
      { out := [.findDefaultCredentials scopes,
                .log ("Could not find project ID from runtime environment, trying the "
                  ++ "GOOGLE_CLOUD_PROJECT environment variable instead.\n"),
                .getenv "GOOGLE_CLOUD_PROJECT",
                .log "Environment variable GOOGLE_CLOUD_PROJECT must contain your project ID.\n"],
        res := .exit 1 } := by
  have hl : len creds.ProjectID = 0 := (len_eq_zero_iff _).2 hp
  have hl2 : len (env.Getenv "GOOGLE_CLOUD_PROJECT") = 0 := (len_eq_zero_iff _).2 hv
  simp [authenticate, emit_bind, google.FindDefaultCredentials, h, hl, hl2, log.Printf, os.Getenv]

/-- All the ways `authenticate` can end. -/
theorem authenticate_cases (env : Env) (scopes : List String) :
    ((authenticate env scopes).res = .exit 1 ∧
      remoteEvents (authenticate env scopes).out = [] ∧
      stdoutWrites (authenticate env scopes).out = [] ∧
      ∀ src, Effect.newClient src ∉ (authenticate env scopes).out) ∨
    (∃ creds, env.FindDefaultCredentials scopes = .ok creds ∧
      resolvedProjectID env creds ≠ "" ∧
      (authenticate env scopes).res =
        .ok (.ok { creds with ProjectID := resolvedProjectID env creds }) ∧
      remoteEvents (authenticate env scopes).out = [] ∧
      stdoutWrites (authenticate env scopes).out = []) := by
  cases h : env.FindDefaultCredentials scopes with
  | error e =>
    left
    rw [authenticate_find_error env scopes e h]
    simp [stdoutWrites]
  | ok creds =>
    by_cases hp : creds.ProjectID = ""
    · by_cases hv : env.Getenv "GOOGLE_CLOUD_PROJECT" = ""
      · left
        rw [authenticate_no_project env scopes creds h hp hv]
        simp [stdoutWrites]
      · right
        refine ⟨creds, rfl, ?_, ?_⟩
        · simp [resolvedProjectID, hp, hv]
        · rw [authenticate_fallback env scopes creds h hp hv]
          simp [stdoutWrites, resolvedProjectID, hp]
    · right
      refine ⟨creds, rfl, ?_, ?_⟩
      · simp [resolvedProjectID, hp]
      · rw [authenticate_direct env scopes creds h hp]
        simp [stdoutWrites, resolvedProjectID, hp]

@[simp] theorem stdoutWrites_nil : stdoutWrites [] = [] := rfl

@[simp] theorem stdoutWrites_cons_stdout (s : String) (l : List Effect) :
    stdoutWrites (.stdout s :: l) = s :: stdoutWrites l := rfl

@[simp] theorem stdoutWrites_cons_remote (c : Call) (ok : Bool) (l : List Effect) :
    stdoutWrites (.remote c ok :: l) = stdoutWrites l := rfl

@[simp] theorem stdoutWrites_cons_log (s : String) (l : List Effect) :
    stdoutWrites (.log s :: l) = stdoutWrites l := rfl

@[simp] theorem stdoutWrites_cons_find (s : List String) (l : List Effect) :
    stdoutWrites (.findDefaultCredentials s :: l) = stdoutWrites l := rfl

@[simp] theorem stdoutWrites_cons_getenv (s : String) (l : List Effect) :
    stdoutWrites (.getenv s :: l) = stdoutWrites l := rfl

@[simp] theorem stdoutWrites_cons_newClient (s : TokenSource) (l : List Effect) :
    stdoutWrites (.newClient s :: l) = stdoutWrites l := rfl

@[simp] theorem stdoutWrites_cons_new (s : HTTPClient) (l : List Effect) :
    stdoutWrites (.new s :: l) = stdoutWrites l := rfl

@[simp] theorem stdoutWrites_cons_newRandom (l : List Effect) :
    stdoutWrites (.newRandom :: l) = stdoutWrites l := rfl

@[simp] theorem stdoutWrites_cons_marshal (p : Policy) (l : List Effect) :
    stdoutWrites (.marshalJSON p :: l) = stdoutWrites l := rfl

@[simp] theorem stdoutWrites_append (l₁ l₂ : List Effect) :
    stdoutWrites (l₁ ++ l₂) = stdoutWrites l₁ ++ stdoutWrites l₂ := by
  simp [stdoutWrites, List.filterMap_append]

@[simp] theorem remoteEvents_map_stdout {α : Type} (f : α → String) (l : List α) :
    remoteEvents (l.map fun c => .stdout (f c)) = [] := by
  induction l with
  | nil => rfl
  | cons c l ih => simpa using ih

@[simp] theorem stdoutWrites_map_stdout {α : Type} (f : α → String) (l : List α) :
    stdoutWrites (l.map fun c => .stdout (f c)) = l.map f := by
  induction l with
  | nil => rfl
  | cons c l ih => simpa using ih

/-- All the ways `createRuntimeConfigClient` can end. -/
theorem createRuntimeConfigClient_cases (env : Env) :
    ((createRuntimeConfigClient env).res = .exit 1 ∧
      remoteEvents (createRuntimeConfigClient env).out = [] ∧
      stdoutWrites (createRuntimeConfigClient env).out = []) ∨
    (∃ creds svc, env.FindDefaultCredentials requestedScopes = .ok creds ∧
      resolvedProjectID env creds ≠ "" ∧
      env.New { Source := creds.TokenSource } = .ok svc ∧
      (createRuntimeConfigClient env).res =
        .ok (.ok { Client := svc, ProjectID := resolvedProjectID env creds }) ∧
      remoteEvents (createRuntimeConfigClient env).out = [] ∧
      stdoutWrites (createRuntimeConfigClient env).out = []) := by
  unfold createRuntimeConfigClient
  rcases authenticate_cases env requestedScopes with ⟨hr, he, hs, _⟩ | ⟨creds, hf, hne, hr, he, hs⟩
  · left
    simp only [requestedScopes] at hr he hs
    rw [bind_of_exit hr]
    exact ⟨rfl, he, hs⟩
  · simp only [requestedScopes] at hr he hs
    rw [bind_of_ok hr]
    cases hn : env.New { Source := creds.TokenSource } with
    | error e =>
      left
      simp [emit_bind, oauth2.NewClient, runtimeconfig.New, hn, he, hs]
    | ok svc =>
      right
      refine ⟨creds, svc, hf, hne, hn, ?_⟩
      simp [emit_bind, oauth2.NewClient, runtimeconfig.New, hn, he, hs]

/-- The member string of the policy, as the script builds it and as the specification
writes it. -/
theorem member_eq (p : String) :
    "serviceAccount:" ++ ("runtimeconfig-spike@" ++ p ++ ".iam.gserviceaccount.com") =
      "serviceAccount:runtimeconfig-spike@" ++ p ++ ".iam.gserviceaccount.com" := by
  rw [← String.append_assoc, ← String.append_assoc]
  rfl

/-- The function `createRuntimeConfigClient` sends nothing to the config service. -/
theorem createRuntimeConfigClient_events (env : Env) :
    remoteEvents (createRuntimeConfigClient env).out = [] := by
  rcases createRuntimeConfigClient_cases env with ⟨_, he, _⟩ | ⟨_, _, _, _, _, _, he, _⟩ <;>
    exact he

/-- The function `createRuntimeConfigClient` writes nothing to standard output. -/
theorem createRuntimeConfigClient_stdout (env : Env) :
    stdoutWrites (createRuntimeConfigClient env).out = [] := by
  rcases createRuntimeConfigClient_cases env with ⟨_, _, hs⟩ | ⟨_, _, _, _, _, _, _, hs⟩ <;>
    exact hs

/-! ## The runs of `main` -/

/-- The loop of `main` that prints the listed configs, after unfolding `fmt.Printf`. -/
theorem forRange_emit (f : RuntimeConfig → String) (l : List RuntimeConfig) :
    forRange l (fun c => emit (.stdout (f c)) ()) =
      { out := l.map fun c => .stdout (f c), res := .ok () } := by
  have h := forRange_printf f l
  simpa only [fmt.Printf] using h

/-- A run in which no client is obtained stops right after `createRuntimeConfigClient`. -/
theorem main_of_client_exit (env : Env) (code : Nat)
    (h : (createRuntimeConfigClient env).res = .exit code) :
    main env =
      { out := .stdout "Creating Runtime Configuration API client\n" ::
          (createRuntimeConfigClient env).out,
        res := .exit code } := by
  simp [main, fmt.Println, emit_bind, bind_of_exit h]

/-- A run in which no UUID is obtained sends nothing to the service. -/
theorem main_of_uuid_error (env : Env) (adc : ApplicationDefaultCredentials) (e : GoError)
    (h : (createRuntimeConfigClient env).res = .ok (.ok adc))
    (hu : env.NewRandom = .error e) :
    remoteEvents (main env).out = [] ∧ (main env).res = .exit 1 := by
  have he := createRuntimeConfigClient_events env
  simp [main, fmt.Println, fmt.Printf, bind_out_of_ok h, bind_res_of_ok h, uuid.NewRandom,
    hu, he]

/-- When every step succeeds, the requests are the seven calls, all successful, and
`main` returns. -/
theorem main_success_events (env : Env) (adc : ApplicationDefaultCredentials) (u : UUID)
    (config : RuntimeConfig) (listed : ListConfigsResponse) (policy : Policy)
    (createdVariable variable_ : Variable)
    (h : (createRuntimeConfigClient env).res = .ok (.ok adc))
    (hu : env.NewRandom = .ok u)
    (h1 : adc.Client.ConfigsCreate ("projects/" ++ adc.ProjectID)
      { Name := "projects/" ++ adc.ProjectID ++ "/configs/config-" ++ u.String,
        Description := "Configuration created via API" } = .ok config)
    (h2 : adc.Client.ConfigsList ("projects/" ++ adc.ProjectID) = .ok listed)
    (h3 : adc.Client.ConfigsSetIamPolicy
      ("projects/" ++ adc.ProjectID ++ "/configs/config-" ++ u.String)
      { Policy := { Bindings := [{ Role := "roles/viewer", Members :=
          ["serviceAccount:runtimeconfig-spike@" ++ adc.ProjectID
            ++ ".iam.gserviceaccount.com"] }] } } = .ok policy)
    (h5 : adc.Client.VariablesCreate
      ("projects/" ++ adc.ProjectID ++ "/configs/config-" ++ u.String)
      { Name := "projects/" ++ adc.ProjectID ++ "/configs/config-" ++ u.String
          ++ "/variables/myvar1",
        Text := "mysecret1" } = .ok createdVariable)
    (h6 : adc.Client.VariablesGet
      ("projects/" ++ adc.ProjectID ++ "/configs/config-" ++ u.String
        ++ "/variables/myvar1") = .ok variable_)
    (h7 : adc.Client.VariablesDelete
      ("projects/" ++ adc.ProjectID ++ "/configs/config-" ++ u.String
        ++ "/variables/myvar1") = .ok ())
    (h8 : adc.Client.ConfigsDelete
      ("projects/" ++ adc.ProjectID ++ "/configs/config-" ++ u.String) = .ok ()) :
    remoteEvents (main env).out =
        (sevenCalls adc.ProjectID u.String).map (fun c => (c, true)) ∧
      (main env).res = .ok () := by
  have he := createRuntimeConfigClient_events env
  simp [main, fmt.Println, fmt.Printf, bind_out_of_ok h, bind_res_of_ok h, uuid.NewRandom,
    hu, he, Projects.Configs.Create, Projects.Configs.List, Projects.Configs.SetIamPolicy,
    Projects.Configs.Variables.Create, Projects.Configs.Variables.Get,
    Projects.Configs.Variables.Delete, Projects.Configs.Delete, Policy.MarshalJSON,
    doCall, succeeded, h1, h2, h3, h5, h6, h7, h8, sevenCalls, forRange_emit, member_eq]

/-- The ways a run that obtained a client and a UUID can end: every request succeeded;
or the request at position `k` of the seven-call sequence failed, after `k` successful
ones. -/
theorem main_events (env : Env) (adc : ApplicationDefaultCredentials) (u : UUID)
    (h : (createRuntimeConfigClient env).res = .ok (.ok adc))
    (hu : env.NewRandom = .ok u) :
    (remoteEvents (main env).out =
        (sevenCalls adc.ProjectID u.String).map (fun c => (c, true)) ∧
      (main env).res = .ok ()) ∨
    (∃ k c, k < 7 ∧ (sevenCalls adc.ProjectID u.String)[k]? = some c ∧
      remoteEvents (main env).out =
        ((sevenCalls adc.ProjectID u.String).take k).map (fun c => (c, true)) ++ [(c, false)] ∧
      (main env).res = .exit 1) := by
  have he := createRuntimeConfigClient_events env
  cases h1 : adc.Client.ConfigsCreate ("projects/" ++ adc.ProjectID)
      { Name := "projects/" ++ adc.ProjectID ++ "/configs/config-" ++ u.String,
        Description := "Configuration created via API" } with
  | error e =>
    refine Or.inr ⟨0, _, by decide, rfl, ?_⟩
    simp [main, fmt.Println, fmt.Printf, bind_out_of_ok h, bind_res_of_ok h, uuid.NewRandom,
      hu, he, Projects.Configs.Create, doCall, succeeded, h1, sevenCalls]
  | ok config =>
  cases h2 : adc.Client.ConfigsList ("projects/" ++ adc.ProjectID) with
  | error e =>
    refine Or.inr ⟨1, _, by decide, rfl, ?_⟩
    simp [main, fmt.Println, fmt.Printf, bind_out_of_ok h, bind_res_of_ok h, uuid.NewRandom,
      hu, he, Projects.Configs.Create, Projects.Configs.List, doCall, succeeded, h1, h2,
      sevenCalls]
  | ok listed =>
  cases h3 : adc.Client.ConfigsSetIamPolicy
      ("projects/" ++ adc.ProjectID ++ "/configs/config-" ++ u.String)
      { Policy := { Bindings := [{ Role := "roles/viewer", Members :=
          ["serviceAccount:runtimeconfig-spike@" ++ adc.ProjectID
            ++ ".iam.gserviceaccount.com"] }] } } with
  | error e =>
    refine Or.inr ⟨2, _, by decide, rfl, ?_⟩
    simp [main, fmt.Println, fmt.Printf, bind_out_of_ok h, bind_res_of_ok h, uuid.NewRandom,
      hu, he, Projects.Configs.Create, Projects.Configs.List, Projects.Configs.SetIamPolicy,
      doCall, succeeded, h1, h2, h3, sevenCalls, forRange_emit, member_eq]
  | ok policy =>
  cases h5 : adc.Client.VariablesCreate
      ("projects/" ++ adc.ProjectID ++ "/configs/config-" ++ u.String)
      { Name := "projects/" ++ adc.ProjectID ++ "/configs/config-" ++ u.String
          ++ "/variables/myvar1",
        Text := "mysecret1" } with
  | error e =>
    refine Or.inr ⟨3, _, by decide, rfl, ?_⟩
    simp [main, fmt.Println, fmt.Printf, bind_out_of_ok h, bind_res_of_ok h, uuid.NewRandom,
      hu, he, Projects.Configs.Create, Projects.Configs.List, Projects.Configs.SetIamPolicy,
      Projects.Configs.Variables.Create, Policy.MarshalJSON, doCall, succeeded, h1, h2, h3,
      h5, sevenCalls, forRange_emit, member_eq]
  | ok createdVariable =>
  cases h6 : adc.Client.VariablesGet
      ("projects/" ++ adc.ProjectID ++ "/configs/config-" ++ u.String
        ++ "/variables/myvar1") with
  | error e =>
    refine Or.inr ⟨4, _, by decide, rfl, ?_⟩
    simp [main, fmt.Println, fmt.Printf, bind_out_of_ok h, bind_res_of_ok h, uuid.NewRandom,
      hu, he, Projects.Configs.Create, Projects.Configs.List, Projects.Configs.SetIamPolicy,
      Projects.Configs.Variables.Create, Projects.Configs.Variables.Get, Policy.MarshalJSON,
      doCall, succeeded, h1, h2, h3, h5, h6, sevenCalls, forRange_emit, member_eq]
  | ok variable_ =>
  cases h7 : adc.Client.VariablesDelete
      ("projects/" ++ adc.ProjectID ++ "/configs/config-" ++ u.String
        ++ "/variables/myvar1") with
  | error e =>
    refine Or.inr ⟨5, _, by decide, rfl, ?_⟩
    simp [main, fmt.Println, fmt.Printf, bind_out_of_ok h, bind_res_of_ok h, uuid.NewRandom,
      hu, he, Projects.Configs.Create, Projects.Configs.List, Projects.Configs.SetIamPolicy,
      Projects.Configs.Variables.Create, Projects.Configs.Variables.Get,
      Projects.Configs.Variables.Delete, Policy.MarshalJSON,
      doCall, succeeded, h1, h2, h3, h5, h6, h7, sevenCalls, forRange_emit, member_eq]
  | ok _ =>
  cases h8 : adc.Client.ConfigsDelete
      ("projects/" ++ adc.ProjectID ++ "/configs/config-" ++ u.String) with
  | error e =>
    refine Or.inr ⟨6, _, by decide, rfl, ?_⟩
    simp [main, fmt.Println, fmt.Printf, bind_out_of_ok h, bind_res_of_ok h, uuid.NewRandom,
      hu, he, Projects.Configs.Create, Projects.Configs.List, Projects.Configs.SetIamPolicy,
      Projects.Configs.Variables.Create, Projects.Configs.Variables.Get,
      Projects.Configs.Variables.Delete, Projects.Configs.Delete, Policy.MarshalJSON,
      doCall, succeeded, h1, h2, h3, h5, h6, h7, h8, sevenCalls, forRange_emit, member_eq]
  | ok _ =>
    exact Or.inl (main_success_events env adc u config listed policy
      createdVariable variable_ h hu h1 h2 h3 h5 h6 h7 h8)

/-- Every run of `main`: either nothing is sent to the service and the process exits with
status 1, or a client and a UUID were obtained and the run ends in one of the two ways
of `main_events`. -/
theorem main_trace (env : Env) :
    (remoteEvents (main env).out = [] ∧ (main env).res = .exit 1) ∨
    ∃ adc u, (createRuntimeConfigClient env).res = .ok (.ok adc) ∧ env.NewRandom = .ok u ∧
      ((remoteEvents (main env).out =
          (sevenCalls adc.ProjectID u.String).map (fun c => (c, true)) ∧
        (main env).res = .ok ()) ∨
      (∃ k c, k < 7 ∧ (sevenCalls adc.ProjectID u.String)[k]? = some c ∧
        remoteEvents (main env).out =
          ((sevenCalls adc.ProjectID u.String).take k).map (fun c => (c, true))
            ++ [(c, false)] ∧
        (main env).res = .exit 1)) := by
  rcases createRuntimeConfigClient_cases env with ⟨hx, he, _⟩ | ⟨creds, svc, _, _, _, hr, _, _⟩
  · left
    rw [main_of_client_exit env 1 hx]
    simp [he]
  · cases hu : env.NewRandom with
    | error e => exact Or.inl (main_of_uuid_error env _ e hr hu)
    | ok u => exact Or.inr ⟨_, u, hr, rfl, main_events env _ u hr hu⟩

/-- The call trace of a run that obtained a client and a UUID is an initial segment of
the seven-call sequence. -/
theorem remoteCalls_initial_segment (env : Env) (adc : ApplicationDefaultCredentials) (u : UUID)
    (h : (createRuntimeConfigClient env).res = .ok (.ok adc)) (hu : env.NewRandom = .ok u) :
    remoteCalls (main env).out <+: sevenCalls adc.ProjectID u.String := by
  rcases main_events env adc u h hu with ⟨he, _⟩ | ⟨k, c, hk, hc, he, _⟩
  · simp [remoteCalls, he, Function.comp_def]
  · have hk7 : k < (sevenCalls adc.ProjectID u.String).length := by simpa [sevenCalls] using hk
    have hc2 : (sevenCalls adc.ProjectID u.String)[k] = c := by
      rw [List.getElem?_eq_getElem hk7] at hc
      exact Option.some.inj hc
    have : remoteCalls (main env).out = (sevenCalls adc.ProjectID u.String).take (k + 1) := by
      rw [List.take_succ, hc]
      simp [remoteCalls, he, Function.comp_def]
    rw [this]
    exact List.take_prefix _ _

/-! ## Shared consequences of the case analysis -/

/-- A request flagged as failed is not among requests flagged as successful. -/
theorem failed_not_mem_succeeded (l : List Call) (c : Call) :
    (c, false) ∉ l.map (fun c => (c, true)) := by
  simp

/-- A failed request recorded in a run is the last request of that run, at some position
`k` of the seven-call sequence, and the process exits with status 1. -/
theorem failed_call_is_last (env : Env) (c : Call)
    (hmem : Effect.remote c false ∈ (main env).out) :
    ∃ adc u k, (createRuntimeConfigClient env).res = .ok (.ok adc) ∧ env.NewRandom = .ok u ∧
      k < 7 ∧ (sevenCalls adc.ProjectID u.String)[k]? = some c ∧
      remoteCalls (main env).out = (sevenCalls adc.ProjectID u.String).take (k + 1) ∧
      (main env).res = .exit 1 := by
  have hm := mem_remoteEvents.2 hmem
  rcases main_trace env with ⟨he, _⟩ | ⟨adc, u, h, hu, ⟨he, _⟩ | ⟨k, c', hk, hc, he, hr⟩⟩
  · rw [he] at hm
    cases hm
  · rw [he] at hm
    exact absurd hm (failed_not_mem_succeeded _ c)
  · rw [he] at hm
    have hcc : c = c' := by
      rcases List.mem_append.1 hm with h1 | h1
      · exact absurd h1 (failed_not_mem_succeeded _ c)
      · simpa using h1
    subst hcc
    refine ⟨adc, u, k, h, hu, hk, hc, ?_, hr⟩
    rw [List.take_succ, hc]
    simp [remoteCalls, he, Function.comp_def]

/-- A run that returns normally sent exactly the seven-call sequence. -/
theorem calls_of_success (env : Env) (hok : (main env).res = .ok ()) :
    ∃ adc u, (createRuntimeConfigClient env).res = .ok (.ok adc) ∧ env.NewRandom = .ok u ∧
      remoteCalls (main env).out = sevenCalls adc.ProjectID u.String := by
  rcases main_trace env with ⟨_, hr⟩ | ⟨adc, u, h, hu, ⟨he, _⟩ | ⟨k, c', hk, hc, he, hr⟩⟩
  · rw [hr] at hok
    cases hok
  · exact ⟨adc, u, h, hu, by simp [remoteCalls, he, Function.comp_def]⟩
  · rw [hr] at hok
    cases hok

/-- Every request of a run that obtained a client and a UUID is one of the seven calls. -/
theorem mem_sevenCalls_of_remote (env : Env) (adc : ApplicationDefaultCredentials) (u : UUID)
    (h : (createRuntimeConfigClient env).res = .ok (.ok adc)) (hu : env.NewRandom = .ok u)
    (c : Call) (ok : Bool) (hmem : Effect.remote c ok ∈ (main env).out) :
    c ∈ sevenCalls adc.ProjectID u.String := by
  have hm := mem_remoteEvents.2 hmem
  have hc : c ∈ remoteCalls (main env).out := by
    simp only [remoteCalls, List.mem_map]
    exact ⟨(c, ok), hm, rfl⟩
  exact (remoteCalls_initial_segment env adc u h hu).subset hc

/-- A run in which no UUID is obtained records no request. -/
theorem no_remote_of_uuid_error (env : Env) (adc : ApplicationDefaultCredentials) (e : GoError)
    (h : (createRuntimeConfigClient env).res = .ok (.ok adc)) (hu : env.NewRandom = .error e)
    (c : Call) (ok : Bool) : Effect.remote c ok ∉ (main env).out := by
  intro hmem
  have hm := mem_remoteEvents.2 hmem
  rw [(main_of_uuid_error env adc e h hu).1] at hm
  cases hm

/-- Cancellation of a common left part of two strings. -/
theorem append_left_cancel_string {a b c : String} (h : a ++ b = a ++ c) : b = c := by
  have hd := congrArg String.data h
  simp only [String.data_append, List.append_cancel_left_eq] at hd
  exact String.ext hd

/-- Cancellation of a common right part of two strings. -/
theorem append_right_cancel_string {a b c : String} (h : a ++ c = b ++ c) : a = b := by
  have hd := congrArg String.data h
  simp only [String.data_append, List.append_cancel_right_eq] at hd
  exact String.ext hd

/-! ## The claims -/

/-- C1: for every project ID `p` and generated UUID `u`, if credential resolution (the
call of `createRuntimeConfigClient`) and all seven remote calls succeed, then the remote
calls made by `main` are exactly Configs.Create, Configs.List, Configs.SetIamPolicy,
Variables.Create, Variables.Get, Variables.Delete, Configs.Delete, in this order, on the
paths built from `C = "projects/" ++ p ++ "/configs/config-" ++ u`, and `main` returns. -/
theorem main_call_sequence (env : Env) (adc : ApplicationDefaultCredentials) (u : UUID)
    (config : RuntimeConfig) (listed : ListConfigsResponse) (policy : Policy)
    (createdVariable variable_ : Variable)
    (h : (createRuntimeConfigClient env).res = .ok (.ok adc))
    (hu : env.NewRandom = .ok u)
    (h1 : adc.Client.ConfigsCreate ("projects/" ++ adc.ProjectID)
      { Name := "projects/" ++ adc.ProjectID ++ "/configs/config-" ++ u.String,
        Description := "Configuration created via API" } = .ok config)
    (h2 : adc.Client.ConfigsList ("projects/" ++ adc.ProjectID) = .ok listed)
    (h3 : adc.Client.ConfigsSetIamPolicy
      ("projects/" ++ adc.ProjectID ++ "/configs/config-" ++ u.String)
      { Policy := { Bindings := [{ Role := "roles/viewer", Members :=
          ["serviceAccount:runtimeconfig-spike@" ++ adc.ProjectID
            ++ ".iam.gserviceaccount.com"] }] } } = .ok policy)
    (h5 : adc.Client.VariablesCreate
      ("projects/" ++ adc.ProjectID ++ "/configs/config-" ++ u.String)
      { Name := "projects/" ++ adc.ProjectID ++ "/configs/config-" ++ u.String
          ++ "/variables/myvar1",
        Text := "mysecret1" } = .ok createdVariable)
    (h6 : adc.Client.VariablesGet
      ("projects/" ++ adc.ProjectID ++ "/configs/config-" ++ u.String
        ++ "/variables/myvar1") = .ok variable_)
    (h7 : adc.Client.VariablesDelete
      ("projects/" ++ adc.ProjectID ++ "/configs/config-" ++ u.String
        ++ "/variables/myvar1") = .ok ())
    (h8 : adc.Client.ConfigsDelete
      ("projects/" ++ adc.ProjectID ++ "/configs/config-" ++ u.String) = .ok ()) :
    remoteCalls (main env).out =
      [ .ConfigsCreate ("projects/" ++ adc.ProjectID)
          { Name := "projects/" ++ adc.ProjectID ++ "/configs/config-" ++ u.String,
            Description := "Configuration created via API" },
        .ConfigsList ("projects/" ++ adc.ProjectID),
        .ConfigsSetIamPolicy ("projects/" ++ adc.ProjectID ++ "/configs/config-" ++ u.String)
          { Policy := { Bindings := [{ Role := "roles/viewer", Members :=
              ["serviceAccount:runtimeconfig-spike@" ++ adc.ProjectID
                ++ ".iam.gserviceaccount.com"] }] } },
        .VariablesCreate ("projects/" ++ adc.ProjectID ++ "/configs/config-" ++ u.String)
          { Name := "projects/" ++ adc.ProjectID ++ "/configs/config-" ++ u.String
              ++ "/variables/myvar1",
            Text := "mysecret1" },
        .VariablesGet ("projects/" ++ adc.ProjectID ++ "/configs/config-" ++ u.String
          ++ "/variables/myvar1"),
        .VariablesDelete ("projects/" ++ adc.ProjectID ++ "/configs/config-" ++ u.String
          ++ "/variables/myvar1"),
        .ConfigsDelete ("projects/" ++ adc.ProjectID ++ "/configs/config-" ++ u.String) ] ∧
    (main env).res = .ok () := by
  have hs := main_success_events env adc u config listed policy createdVariable
    variable_ h hu h1 h2 h3 h5 h6 h7 h8
  refine ⟨?_, hs.2⟩
  simp [remoteCalls, hs.1, Function.comp_def, sevenCalls]

/-- Witness for C1: the mocked scenario of the specification, project
`test-proj`. -/
theorem main_call_sequence_witness :
    (createRuntimeConfigClient mockEnv).res = .ok (.ok mockADC) ∧
    mockEnv.NewRandom = .ok mockUUID ∧
    mockService.ConfigsCreate "projects/test-proj"
      { Name := mockConfigPath, Description := "Configuration created via API" } =
      .ok { Name := mockConfigPath, Description := "Configuration created via API" } ∧
    mockService.ConfigsList "projects/test-proj" =
      .ok { Configs := [{ Name := "projects/test-proj/configs/old", Description := "" }] } ∧
    mockService.ConfigsSetIamPolicy mockConfigPath { Policy := mockPolicy } = .ok mockPolicy ∧
    mockService.VariablesCreate mockConfigPath
      { Name := mockConfigPath ++ "/variables/myvar1", Text := "mysecret1" } =
      .ok { Name := mockConfigPath ++ "/variables/myvar1", Text := "mysecret1" } ∧
    mockService.VariablesGet (mockConfigPath ++ "/variables/myvar1") =
      .ok { Name := mockConfigPath ++ "/variables/myvar1", Text := "changed" } ∧
    mockService.VariablesDelete (mockConfigPath ++ "/variables/myvar1") = .ok () ∧
    mockService.ConfigsDelete mockConfigPath = .ok () ∧
    remoteCalls (main mockEnv).out =
      [ .ConfigsCreate "projects/test-proj"
          { Name := mockConfigPath, Description := "Configuration created via API" },
        .ConfigsList "projects/test-proj",
        .ConfigsSetIamPolicy mockConfigPath { Policy := mockPolicy },
        .VariablesCreate mockConfigPath
          { Name := mockConfigPath ++ "/variables/myvar1", Text := "mysecret1" },
        .VariablesGet (mockConfigPath ++ "/variables/myvar1"),
        .VariablesDelete (mockConfigPath ++ "/variables/myvar1"),
        .ConfigsDelete mockConfigPath ] ∧
    (main mockEnv).res = .ok () :=
  ⟨rfl, rfl, rfl, rfl, rfl, rfl, rfl, rfl, rfl,
    main_call_sequence mockEnv mockADC mockUUID
      { Name := mockConfigPath, Description := "Configuration created via API" }
      { Configs := [{ Name := "projects/test-proj/configs/old", Description := "" }] }
      mockPolicy
      { Name := mockConfigPath ++ "/variables/myvar1", Text := "mysecret1" }
      { Name := mockConfigPath ++ "/variables/myvar1", Text := "changed" }
      rfl rfl rfl rfl rfl rfl rfl rfl rfl⟩

/-- C2: in every run in which the Configs.Create call returns an error, the call trace is
exactly that single Create call (no List, SetIamPolicy, Variables.* or Delete call is
attempted) and the process terminates, with exit status 1. -/
theorem create_failure_stops (env : Env) (parent : String) (rc : RuntimeConfig)
    (hfail : Effect.remote (.ConfigsCreate parent rc) false ∈ (main env).out) :
    remoteCalls (main env).out = [.ConfigsCreate parent rc] ∧ (main env).res = .exit 1 := by
  rcases failed_call_is_last env _ hfail with ⟨adc, u, k, _, _, hk, hc, hcalls, hr⟩
  refine ⟨?_, hr⟩
  have hk0 : k = 0 := by
    interval_cases k <;> first | rfl | simp [sevenCalls] at hc
  subst hk0
  rw [hcalls]
  simp only [sevenCalls, List.getElem?_cons_zero, Option.some.injEq] at hc
  simp [sevenCalls, hc]

/-- Witness for C2: a service that rejects Configs.Create. -/
theorem create_failure_stops_witness :
    Effect.remote (.ConfigsCreate "projects/test-proj"
        { Name := mockConfigPath, Description := "Configuration created via API" }) false
      ∈ (main createFailEnv).out ∧
    remoteCalls (main createFailEnv).out =
      [.ConfigsCreate "projects/test-proj"
        { Name := mockConfigPath, Description := "Configuration created via API" }] ∧
    (main createFailEnv).res = .exit 1 :=
  ⟨by decide, create_failure_stops createFailEnv _ _ (by decide)⟩

/-- C3: when the discovered credentials carry an empty project ID and
`GOOGLE_CLOUD_PROJECT` is unset or empty, `authenticate` ends the process with status 1;
the run of `main` consists of the banner, the credential lookup, the environment read and
two log messages, so no request is sent to the config service and neither
`oauth2.NewClient` nor `runtimeconfig.New` is called. -/
theorem no_project_fails_before_any_call (env : Env) (creds : Credentials)
    (hf : env.FindDefaultCredentials requestedScopes = .ok creds)
    (hp : creds.ProjectID = "") (hv : env.Getenv "GOOGLE_CLOUD_PROJECT" = "") :
    (authenticate env requestedScopes).res = .exit 1 ∧
    (main env).out =
      [ .stdout "Creating Runtime Configuration API client\n",
        .findDefaultCredentials requestedScopes,
        .log ("Could not find project ID from runtime environment, trying the "
          ++ "GOOGLE_CLOUD_PROJECT environment variable instead.\n"),
        .getenv "GOOGLE_CLOUD_PROJECT",
        .log "Environment variable GOOGLE_CLOUD_PROJECT must contain your project ID.\n" ] ∧
    (main env).res = .exit 1 ∧
    remoteCalls (main env).out = [] ∧
    (∀ src, Effect.newClient src ∉ (main env).out) ∧
    (∀ client, Effect.new client ∉ (main env).out) := by
  have ha := authenticate_no_project env requestedScopes creds hf hp hv
  have hc : createRuntimeConfigClient env =
      { out := (authenticate env requestedScopes).out, res := .exit 1 } := by
    have hr : (authenticate env requestedScopes).res = .exit 1 := by rw [ha]
    unfold createRuntimeConfigClient
    exact bind_of_exit hr _
  have hm := main_of_client_exit env 1 (by rw [hc])
  rw [hm, hc, ha]
  simp [remoteCalls]

/-- Witness for C3: credentials without a project ID, `GOOGLE_CLOUD_PROJECT` unset. -/
theorem no_project_fails_before_any_call_witness :
    noProjectEnv.FindDefaultCredentials requestedScopes =
      .ok { ProjectID := "", TokenSource := { handle := "adc" } } ∧
    noProjectEnv.Getenv "GOOGLE_CLOUD_PROJECT" = "" ∧
    (authenticate noProjectEnv requestedScopes).res = .exit 1 ∧
    (main noProjectEnv).res = .exit 1 ∧
    remoteCalls (main noProjectEnv).out = [] :=
  have h := no_project_fails_before_any_call noProjectEnv
    { ProjectID := "", TokenSource := { handle := "adc" } } rfl rfl rfl
  ⟨rfl, rfl, h.1, h.2.2.1, h.2.2.2.1⟩

/-- C4: for every resolved project ID `p`, every SetIamPolicy request that `main` sends
carries a policy with exactly one binding, of role `roles/viewer`, whose member list is the
single string `"serviceAccount:runtimeconfig-spike@" ++ p ++ ".iam.gserviceaccount.com"`. -/
theorem policy_has_single_viewer_binding (env : Env) (adc : ApplicationDefaultCredentials)
    (h : (createRuntimeConfigClient env).res = .ok (.ok adc))
    (resource : String) (request : SetIamPolicyRequest) (ok : Bool)
    (hsent : Effect.remote (.ConfigsSetIamPolicy resource request) ok ∈ (main env).out) :
    request.Policy.Bindings =
      [{ Role := "roles/viewer",
         Members := ["serviceAccount:runtimeconfig-spike@" ++ adc.ProjectID
           ++ ".iam.gserviceaccount.com"] }] := by
  cases hu : env.NewRandom with
  | error e => exact absurd hsent (no_remote_of_uuid_error env adc e h hu _ _)
  | ok u =>
    have hmem := mem_sevenCalls_of_remote env adc u h hu _ ok hsent
    simp [sevenCalls] at hmem
    rw [hmem.2]

/-- Witness for C4: the policy request of the mocked scenario. -/
theorem policy_has_single_viewer_binding_witness :
    (createRuntimeConfigClient mockEnv).res = .ok (.ok mockADC) ∧
    Effect.remote (.ConfigsSetIamPolicy mockConfigPath { Policy := mockPolicy }) true
      ∈ (main mockEnv).out ∧
    mockPolicy.Bindings =
      [{ Role := "roles/viewer",
         Members := ["serviceAccount:runtimeconfig-spike@" ++ "test-proj"
           ++ ".iam.gserviceaccount.com"] }] :=
  ⟨rfl, by decide,
    policy_has_single_viewer_binding mockEnv mockADC rfl mockConfigPath
      { Policy := mockPolicy } true (by decide)⟩

/-- C5: for every resolved project ID `p` and generated UUID `u`, the first request of the
run is Configs.Create under `"projects/" ++ p` with name
`"projects/" ++ p ++ "/configs/config-" ++ u.String`, and every Configs.Create request of
the run carries that name. -/
theorem create_request_name (env : Env) (adc : ApplicationDefaultCredentials) (u : UUID)
    (h : (createRuntimeConfigClient env).res = .ok (.ok adc)) (hu : env.NewRandom = .ok u) :
    (remoteCalls (main env).out).head? =
        some (.ConfigsCreate ("projects/" ++ adc.ProjectID)
          { Name := "projects/" ++ adc.ProjectID ++ "/configs/config-" ++ u.String,
            Description := "Configuration created via API" }) ∧
      ∀ parent rc ok, Effect.remote (.ConfigsCreate parent rc) ok ∈ (main env).out →
        rc.Name = "projects/" ++ adc.ProjectID ++ "/configs/config-" ++ u.String := by
  constructor
  · rcases main_events env adc u h hu with ⟨he, _⟩ | ⟨k, c, hk, hc, he, _⟩
    · simp [remoteCalls, he, sevenCalls]
    · interval_cases k <;> simp [sevenCalls] at hc <;> simp [remoteCalls, he, sevenCalls, hc]
  · intro parent rc ok hsent
    have hmem := mem_sevenCalls_of_remote env adc u h hu _ ok hsent
    simp [sevenCalls] at hmem
    rw [hmem.2]

/-- Witness for C5: the create request of the mocked scenario. -/
theorem create_request_name_witness :
    (createRuntimeConfigClient mockEnv).res = .ok (.ok mockADC) ∧
    mockEnv.NewRandom = .ok mockUUID ∧
    (remoteCalls (main mockEnv).out).head? =
      some (.ConfigsCreate ("projects/" ++ "test-proj")
        { Name := "projects/" ++ "test-proj" ++ "/configs/config-" ++ mockUUID.String,
          Description := "Configuration created via API" }) :=
  ⟨rfl, rfl, (create_request_name mockEnv mockADC mockUUID rfl rfl).1⟩

/-- C6: for every variable returned by the Variables.Get call, whatever its text `t`, the
write to standard output that follows "Getting config variable ..." is exactly
`"Variable text: " ++ t ++ "\n"`: the returned text is printed untransformed, and when `t`
differs from the created value `mysecret1` that line is not the line of the created
literal. -/
theorem get_text_is_printed (env : Env) (adc : ApplicationDefaultCredentials) (u : UUID)
    (config : RuntimeConfig) (listed : ListConfigsResponse) (policy : Policy)
    (createdVariable variable_ : Variable)
    (h : (createRuntimeConfigClient env).res = .ok (.ok adc))
    (hu : env.NewRandom = .ok u)
    (h1 : adc.Client.ConfigsCreate ("projects/" ++ adc.ProjectID)
      { Name := "projects/" ++ adc.ProjectID ++ "/configs/config-" ++ u.String,
        Description := "Configuration created via API" } = .ok config)
    (h2 : adc.Client.ConfigsList ("projects/" ++ adc.ProjectID) = .ok listed)
    (h3 : adc.Client.ConfigsSetIamPolicy
      ("projects/" ++ adc.ProjectID ++ "/configs/config-" ++ u.String)
      { Policy := { Bindings := [{ Role := "roles/viewer", Members :=
          ["serviceAccount:runtimeconfig-spike@" ++ adc.ProjectID
            ++ ".iam.gserviceaccount.com"] }] } } = .ok policy)
    (h5 : adc.Client.VariablesCreate
      ("projects/" ++ adc.ProjectID ++ "/configs/config-" ++ u.String)
      { Name := "projects/" ++ adc.ProjectID ++ "/configs/config-" ++ u.String
          ++ "/variables/myvar1",
        Text := "mysecret1" } = .ok createdVariable)
    (h6 : adc.Client.VariablesGet
      ("projects/" ++ adc.ProjectID ++ "/configs/config-" ++ u.String
        ++ "/variables/myvar1") = .ok variable_) :
    (∃ post, stdoutWrites (main env).out =
      [ "Creating Runtime Configuration API client\n",
        "Project ID: " ++ adc.ProjectID ++ "\n",
        "Creating config "
          ++ ("projects/" ++ adc.ProjectID ++ "/configs/config-" ++ u.String) ++ "\n",
        "Config: " ++ config.Name ++ "\n",
        "Listing existing configs for project ID " ++ adc.ProjectID ++ ":\n" ]
      ++ listed.Configs.map (fun savedConfig => "Saved config: " ++ savedConfig.Name ++ "\n")
      ++ [ "Setting IAM policy with role \"roles/viewer\" for serviceAccount:"
            ++ ("runtimeconfig-spike@" ++ adc.ProjectID ++ ".iam.gserviceaccount.com") ++ "\n",
          "Policy:\n" ++ env.MarshalJSON policy ++ "\n",
          "Creating config variable "
            ++ ("projects/" ++ adc.ProjectID ++ "/configs/config-" ++ u.String
              ++ "/variables/myvar1") ++ "\n",
          "Variable name: " ++ createdVariable.Name ++ "\n",
          "Getting config variable "
            ++ ("projects/" ++ adc.ProjectID ++ "/configs/config-" ++ u.String
              ++ "/variables/myvar1") ++ "\n",
          "Variable text: " ++ variable_.Text ++ "\n",
          "Deleting config variable "
            ++ ("projects/" ++ adc.ProjectID ++ "/configs/config-" ++ u.String
              ++ "/variables/myvar1") ++ "\n" ]
      ++ post) ∧
    (variable_.Text ≠ "mysecret1" →
      "Variable text: " ++ variable_.Text ++ "\n" ≠ "Variable text: " ++ "mysecret1" ++ "\n") := by
  have hs := createRuntimeConfigClient_stdout env
  constructor
  · cases h7 : adc.Client.VariablesDelete
        ("projects/" ++ adc.ProjectID ++ "/configs/config-" ++ u.String
          ++ "/variables/myvar1") with
    | error e =>
      refine ⟨[], ?_⟩
      simp [main, fmt.Println, fmt.Printf, bind_out_of_ok h, bind_res_of_ok h, uuid.NewRandom,
        hu, hs, Projects.Configs.Create, Projects.Configs.List, Projects.Configs.SetIamPolicy,
        Projects.Configs.Variables.Create, Projects.Configs.Variables.Get,
        Projects.Configs.Variables.Delete, Policy.MarshalJSON,
        doCall, h1, h2, h3, h5, h6, h7, forRange_emit, member_eq]
    | ok _ =>
      refine ⟨["Deleting config "
        ++ ("projects/" ++ adc.ProjectID ++ "/configs/config-" ++ u.String) ++ "\n"], ?_⟩
      cases h8 : adc.Client.ConfigsDelete
          ("projects/" ++ adc.ProjectID ++ "/configs/config-" ++ u.String) <;>
      simp [main, fmt.Println, fmt.Printf, bind_out_of_ok h, bind_res_of_ok h, uuid.NewRandom,
        hu, hs, Projects.Configs.Create, Projects.Configs.List, Projects.Configs.SetIamPolicy,
        Projects.Configs.Variables.Create, Projects.Configs.Variables.Get,
        Projects.Configs.Variables.Delete, Projects.Configs.Delete, Policy.MarshalJSON,
        doCall, h1, h2, h3, h5, h6, h7, h8, forRange_emit, member_eq]
  · intro hne heq
    exact hne (append_left_cancel_string (append_right_cancel_string heq))

/-- Witness for C6: in the mocked scenario Variables.Get answers `changed`. -/
theorem get_text_is_printed_witness :
    (createRuntimeConfigClient mockEnv).res = .ok (.ok mockADC) ∧
    mockEnv.NewRandom = .ok mockUUID ∧
    mockService.ConfigsCreate "projects/test-proj"
      { Name := mockConfigPath, Description := "Configuration created via API" } =
      .ok { Name := mockConfigPath, Description := "Configuration created via API" } ∧
    mockService.ConfigsList "projects/test-proj" =
      .ok { Configs := [{ Name := "projects/test-proj/configs/old", Description := "" }] } ∧
    mockService.ConfigsSetIamPolicy mockConfigPath { Policy := mockPolicy } = .ok mockPolicy ∧
    mockService.VariablesCreate mockConfigPath
      { Name := mockConfigPath ++ "/variables/myvar1", Text := "mysecret1" } =
      .ok { Name := mockConfigPath ++ "/variables/myvar1", Text := "mysecret1" } ∧
    mockService.VariablesGet (mockConfigPath ++ "/variables/myvar1") =
      .ok { Name := mockConfigPath ++ "/variables/myvar1", Text := "changed" } ∧
    "changed" ≠ "mysecret1" ∧
    "Variable text: " ++ "changed" ++ "\n" ≠ "Variable text: " ++ "mysecret1" ++ "\n" :=
  ⟨rfl, rfl, rfl, rfl, rfl, rfl, rfl, by decide,
    (get_text_is_printed mockEnv mockADC mockUUID
      { Name := mockConfigPath, Description := "Configuration created via API" }
      { Configs := [{ Name := "projects/test-proj/configs/old", Description := "" }] }
      mockPolicy
      { Name := mockConfigPath ++ "/variables/myvar1", Text := "mysecret1" }
      { Name := mockConfigPath ++ "/variables/myvar1", Text := "changed" }
      rfl rfl rfl rfl rfl rfl rfl).2 (by decide)⟩

/-- C7: after a successful credential discovery, `authenticate` returns a non-empty
discovered project ID unchanged, without reading the environment; when the discovered
project ID is empty and `GOOGLE_CLOUD_PROJECT` is non-empty it returns the credentials
with the variable's value as project ID; and `createRuntimeConfigClient` bundles the
project ID returned by `authenticate` with the client built from its token source:
it returns that bundle when the client is built, and returns no other bundle. -/
theorem authenticate_resolves_project (env : Env) (scopes : List String) (creds : Credentials)
    (hf : env.FindDefaultCredentials scopes = .ok creds) :
    (creds.ProjectID ≠ "" →
      authenticate env scopes =
        { out := [.findDefaultCredentials scopes], res := .ok (.ok creds) }) ∧
    (creds.ProjectID = "" → env.Getenv "GOOGLE_CLOUD_PROJECT" ≠ "" →
      (authenticate env scopes).res =
        .ok (.ok { creds with ProjectID := env.Getenv "GOOGLE_CLOUD_PROJECT" })) ∧
    (∀ credentials svc,
      (authenticate env requestedScopes).res = .ok (.ok credentials) →
      env.New { Source := credentials.TokenSource } = .ok svc →
      (createRuntimeConfigClient env).res =
        .ok (.ok { Client := svc, ProjectID := credentials.ProjectID })) ∧
    (∀ adc, (createRuntimeConfigClient env).res = .ok (.ok adc) →
      ∃ credentials, (authenticate env requestedScopes).res = .ok (.ok credentials) ∧
        env.New { Source := credentials.TokenSource } = .ok adc.Client ∧
        adc.ProjectID = credentials.ProjectID) := by
  refine ⟨fun hp => authenticate_direct env scopes creds hf hp, fun hp hv => ?_,
    fun credentials svc ha hn => ?_, fun adc hadc => ?_⟩
  · rw [authenticate_fallback env scopes creds hf hp hv]
  · simp only [requestedScopes] at ha
    unfold createRuntimeConfigClient
    rw [bind_res_of_ok ha]
    simp [oauth2.NewClient, runtimeconfig.New, hn]
  · unfold createRuntimeConfigClient at hadc
    cases ha : (authenticate env requestedScopes).res with
    | exit code =>
      simp only [requestedScopes] at ha
      rw [bind_of_exit ha] at hadc
      cases hadc
    | ok authenticated =>
      simp only [requestedScopes] at ha
      rw [bind_res_of_ok ha] at hadc
      cases authenticated with
      | error e => simp at hadc
      | ok credentials =>
        refine ⟨credentials, rfl, ?_⟩
        cases hn : env.New { Source := credentials.TokenSource } with
        | error e => simp [oauth2.NewClient, runtimeconfig.New, hn] at hadc
        | ok svc =>
          simp [oauth2.NewClient, runtimeconfig.New, hn] at hadc
          rw [← hadc]
          exact ⟨rfl, rfl⟩

/-- Witness for C7: a discovered project ID is kept and the environment is not read; an
empty one is replaced by the value of `GOOGLE_CLOUD_PROJECT`, and that value is what
`createRuntimeConfigClient` bundles with the client. -/
theorem authenticate_resolves_project_witness :
    mockEnv.FindDefaultCredentials requestedScopes =
        .ok { ProjectID := "test-proj", TokenSource := { handle := "adc" } } ∧
      authenticate mockEnv requestedScopes =
        { out := [.findDefaultCredentials requestedScopes],
          res := .ok (.ok { ProjectID := "test-proj", TokenSource := { handle := "adc" } }) } ∧
      fallbackEnv.FindDefaultCredentials requestedScopes =
        .ok { ProjectID := "", TokenSource := { handle := "adc" } } ∧
      fallbackEnv.Getenv "GOOGLE_CLOUD_PROJECT" = "env-proj" ∧
      (authenticate fallbackEnv requestedScopes).res =
        .ok (.ok { ProjectID := "env-proj", TokenSource := { handle := "adc" } }) ∧
      fallbackEnv.New { Source := { handle := "adc" } } = .ok mockService ∧
      (createRuntimeConfigClient fallbackEnv).res =
        .ok (.ok { Client := mockService, ProjectID := "env-proj" }) :=
  have h1 := authenticate_resolves_project mockEnv requestedScopes
    { ProjectID := "test-proj", TokenSource := { handle := "adc" } } rfl
  have h2 := authenticate_resolves_project fallbackEnv requestedScopes
    { ProjectID := "", TokenSource := { handle := "adc" } } rfl
  ⟨rfl, h1.1 (by decide), rfl, rfl, h2.2.1 rfl (by decide), rfl,
    h2.2.2.1 { ProjectID := "env-proj", TokenSource := { handle := "adc" } } mockService
      (h2.2.1 rfl (by decide)) rfl⟩

/-- C8: in every run in which some remote call fails, the failed call is the last one:
the call trace is the initial segment of the seven-call sequence that ends at the failed
call and the process exits with status 1. Hence, unless the failed call is itself
Variables.Delete or Configs.Delete, no Variables.Delete is sent, and unless it is
Configs.Delete, no Configs.Delete is sent: nothing is cleaned up. -/
theorem failure_stops_without_cleanup (env : Env) (c : Call)
    (hfail : Effect.remote c false ∈ (main env).out) :
    ∃ adc u k, (createRuntimeConfigClient env).res = .ok (.ok adc) ∧ env.NewRandom = .ok u ∧
      k < 7 ∧ (sevenCalls adc.ProjectID u.String)[k]? = some c ∧
      remoteCalls (main env).out = (sevenCalls adc.ProjectID u.String).take (k + 1) ∧
      (main env).res = .exit 1 ∧
      ((∀ n, c ≠ .VariablesDelete n) → (∀ n, c ≠ .ConfigsDelete n) →
        ∀ n, Call.VariablesDelete n ∉ remoteCalls (main env).out) ∧
      ((∀ n, c ≠ .ConfigsDelete n) →
        ∀ n, Call.ConfigsDelete n ∉ remoteCalls (main env).out) := by
  rcases failed_call_is_last env c hfail with ⟨adc, u, k, h, hu, hk, hc, hcalls, hr⟩
  refine ⟨adc, u, k, h, hu, hk, hc, hcalls, hr, ?_, ?_⟩
  · intro hvd hcd n
    rw [hcalls]
    interval_cases k
    · simp [sevenCalls]
    · simp [sevenCalls]
    · simp [sevenCalls]
    · simp [sevenCalls]
    · simp [sevenCalls]
    · simp only [sevenCalls, List.getElem?_cons_succ, List.getElem?_cons_zero,
        Option.some.injEq] at hc
      exact absurd hc.symm (hvd _)
    · simp only [sevenCalls, List.getElem?_cons_succ, List.getElem?_cons_zero,
        Option.some.injEq] at hc
      exact absurd hc.symm (hcd _)
  · intro hcd n
    rw [hcalls]
    interval_cases k
    · simp [sevenCalls]
    · simp [sevenCalls]
    · simp [sevenCalls]
    · simp [sevenCalls]
    · simp [sevenCalls]
    · simp [sevenCalls]
    · simp only [sevenCalls, List.getElem?_cons_succ, List.getElem?_cons_zero,
        Option.some.injEq] at hc
      exact absurd hc.symm (hcd _)

/-- Witness for C8: a service that rejects Variables.Get; the run stops there. -/
theorem failure_stops_without_cleanup_witness :
    Effect.remote (.VariablesGet (mockConfigPath ++ "/variables/myvar1")) false
        ∈ (main getFailEnv).out ∧
      ∃ adc u k, (createRuntimeConfigClient getFailEnv).res = .ok (.ok adc) ∧
        getFailEnv.NewRandom = .ok u ∧
        k < 7 ∧ (sevenCalls adc.ProjectID u.String)[k]?
          = some (.VariablesGet (mockConfigPath ++ "/variables/myvar1")) ∧
        remoteCalls (main getFailEnv).out = (sevenCalls adc.ProjectID u.String).take (k + 1) ∧
        (main getFailEnv).res = .exit 1 ∧
        ((∀ n, Call.VariablesGet (mockConfigPath ++ "/variables/myvar1") ≠ .VariablesDelete n) →
          (∀ n, Call.VariablesGet (mockConfigPath ++ "/variables/myvar1") ≠ .ConfigsDelete n) →
          ∀ n, Call.VariablesDelete n ∉ remoteCalls (main getFailEnv).out) ∧
        ((∀ n, Call.VariablesGet (mockConfigPath ++ "/variables/myvar1") ≠ .ConfigsDelete n) →
          ∀ n, Call.ConfigsDelete n ∉ remoteCalls (main getFailEnv).out) :=
  ⟨by decide, failure_stops_without_cleanup getFailEnv _ (by decide)⟩

/-- C9 (as amended): every run of `main` that returns normally issued seven remote calls
to the config service. -/
theorem successful_run_makes_seven_calls (env : Env) (hok : (main env).res = .ok ()) :
    (remoteCalls (main env).out).length = 7 := by
  rcases calls_of_success env hok with ⟨adc, u, _, _, hcalls⟩
  rw [hcalls]
  rfl

/-- Witness for C9 (as amended): the mocked scenario. -/
theorem successful_run_makes_seven_calls_witness :
    (main mockEnv).res = .ok () ∧ (remoteCalls (main mockEnv).out).length = 7 :=
  ⟨by decide, successful_run_makes_seven_calls mockEnv (by decide)⟩

/-- C9 (as stated) fails: the fully successful run of the mocked scenario issues seven
remote calls, not eight. -/
theorem eight_calls_counterexample :
    (main mockEnv).res = .ok () ∧ (remoteCalls (main mockEnv).out).length = 7 ∧
      (remoteCalls (main mockEnv).out).length ≠ 8 := by
  decide

/-- C10: the config path is injective in the UUID text: for every project ID `p` and UUID
texts `s1 ≠ s2`, the config paths `"projects/" ++ p ++ "/configs/config-" ++ s` differ, and
so do the variable paths built on them. Hence two runs for project `p` that draw UUIDs
with these texts never send a Configs.Create with the same name, nor a Variables.Create
with the same variable name. -/
theorem config_path_injective_in_uuid (p s1 s2 : String) (hne : s1 ≠ s2) :
    "projects/" ++ p ++ "/configs/config-" ++ s1 ≠ "projects/" ++ p ++ "/configs/config-" ++ s2 ∧
    "projects/" ++ p ++ "/configs/config-" ++ s1 ++ "/variables/myvar1" ≠
      "projects/" ++ p ++ "/configs/config-" ++ s2 ++ "/variables/myvar1" ∧
    ∀ (env1 env2 : Env) (adc1 adc2 : ApplicationDefaultCredentials) (u1 u2 : UUID),
      (createRuntimeConfigClient env1).res = .ok (.ok adc1) →
      (createRuntimeConfigClient env2).res = .ok (.ok adc2) →
      adc1.ProjectID = p → adc2.ProjectID = p →
      env1.NewRandom = .ok u1 → env2.NewRandom = .ok u2 →
      u1.String = s1 → u2.String = s2 →
      (∀ parent1 rc1 ok1 parent2 rc2 ok2,
        Effect.remote (.ConfigsCreate parent1 rc1) ok1 ∈ (main env1).out →
        Effect.remote (.ConfigsCreate parent2 rc2) ok2 ∈ (main env2).out →
        rc1.Name ≠ rc2.Name) ∧
      (∀ parent1 v1 ok1 parent2 v2 ok2,
        Effect.remote (.VariablesCreate parent1 v1) ok1 ∈ (main env1).out →
        Effect.remote (.VariablesCreate parent2 v2) ok2 ∈ (main env2).out →
        v1.Name ≠ v2.Name) := by
  have hpath : "projects/" ++ p ++ "/configs/config-" ++ s1 ≠
      "projects/" ++ p ++ "/configs/config-" ++ s2 :=
    fun heq => hne (append_left_cancel_string heq)
  have hvar : "projects/" ++ p ++ "/configs/config-" ++ s1 ++ "/variables/myvar1" ≠
      "projects/" ++ p ++ "/configs/config-" ++ s2 ++ "/variables/myvar1" :=
    fun heq => hpath (append_right_cancel_string heq)
  refine ⟨hpath, hvar, ?_⟩
  intro env1 env2 adc1 adc2 u1 u2 h1 h2 hp1 hp2 hu1 hu2 hs1 hs2
  constructor
  · intro parent1 rc1 ok1 parent2 rc2 ok2 hm1 hm2
    have hc1 := mem_sevenCalls_of_remote env1 adc1 u1 h1 hu1 _ ok1 hm1
    have hc2 := mem_sevenCalls_of_remote env2 adc2 u2 h2 hu2 _ ok2 hm2
    simp [sevenCalls] at hc1 hc2
    rw [hc1.2, hc2.2, hp1, hp2, hs1, hs2]
    exact hpath
  · intro parent1 v1 ok1 parent2 v2 ok2 hm1 hm2
    have hc1 := mem_sevenCalls_of_remote env1 adc1 u1 h1 hu1 _ ok1 hm1
    have hc2 := mem_sevenCalls_of_remote env2 adc2 u2 h2 hu2 _ ok2 hm2
    simp [sevenCalls] at hc1 hc2
    rw [hc1.2, hc2.2, hp1, hp2, hs1, hs2]
    exact hvar

/-- Witness for C10: two UUID texts that differ in their first octet. -/
theorem config_path_injective_in_uuid_witness :
    "00010203-0405-0607-0809-0a0b0c0d0e0f" ≠ "ff010203-0405-0607-0809-0a0b0c0d0e0f" ∧
      "projects/" ++ "test-proj" ++ "/configs/config-" ++ "00010203-0405-0607-0809-0a0b0c0d0e0f"
        ≠ "projects/" ++ "test-proj" ++ "/configs/config-"
          ++ "ff010203-0405-0607-0809-0a0b0c0d0e0f" :=
  ⟨by decide, (config_path_injective_in_uuid "test-proj"
    "00010203-0405-0607-0809-0a0b0c0d0e0f" "ff010203-0405-0607-0809-0a0b0c0d0e0f"
    (by decide)).1⟩

end RuntimeConfigSpike
